import Mathlib

/-!
# Verification of `plot_spectrum.py`

Shallow embedding of the spectrum-synthesis script of this repository.
The script builds a wavelength axis with `np.linspace(10.0, 30.0, 500)`,
a linear continuum `1.0 + 0.02 * (wavelength - 20.0)`, a Gaussian emission
line `0.3 * exp(-(wavelength - 17.22)^2 / (2 * 0.15^2))`, seeded noise
`0.02 * rng.standard_normal(500)` with `rng = np.random.default_rng(12345)`,
and the flux `continuum + line_profile + noise`.  It then wraps the arrays
in a `Spectrum` object, renders the plot, and saves one PNG file.

Array arithmetic over float64 is idealised over the real numbers; the
arrays of length 500 are embedded as functions on `Fin 500` together with
their `List.ofFn` images.  The library random generator is not part of the
repository: it is abstracted as an arbitrary deterministic draw function
`g : ℕ → ℕ → ℝ` mapping a seed and a sample index to a standard-normal
draw, which is exactly the interface the script uses (create a generator
from a seed, draw `n_points` values).
-/

namespace PlotSpectrum

/-- Literal `wave_min = 10.0` µm, first argument of the linspace call. -/
def wave_min : ℝ := 10.0

/-- Literal `wave_max = 30.0` µm, second argument of the linspace call. -/
def wave_max : ℝ := 30.0

/-- Literal `n_points = 500`, the number of samples of the linspace call. -/
def n_points : ℕ := 500

/-- Embedding of `wavelength = np.linspace(10.0, 30.0, 500)`: sample `i` is
`start + i * (stop - start) / (num - 1)`, with the endpoint included. -/
noncomputable def wavelength (i : Fin 500) : ℝ :=
  wave_min + (wave_max - wave_min) * (i : ℝ) / ((n_points : ℝ) - 1)

/-- Embedding of `continuum = 1.0 + 0.02 * (wavelength - 20.0)`, pointwise. -/
noncomputable def continuum (w : ℝ) : ℝ := 1.0 + 0.02 * (w - 20.0)

/-- Literal `line_center = 17.22` µm. -/
def line_center : ℝ := 17.22

/-- Literal `line_width = 0.15` µm. -/
def line_width : ℝ := 0.15

/-- Literal `line_ampl = 0.3`. -/
def line_ampl : ℝ := 0.3

/-- Embedding of `line_profile = line_ampl * np.exp(-(wavelength - line_center)**2
/ (2.0 * line_width**2))`, pointwise. -/
noncomputable def line_profile (w : ℝ) : ℝ :=
  line_ampl * Real.exp (-(w - line_center) ^ 2 / (2.0 * line_width ^ 2))

/-- Embedding of `noise = 0.02 * rng.standard_normal(n_points)` where
`rng = np.random.default_rng(seed)`: draw `i` of the stream of `seed`,
scaled by `0.02`.  `g` abstracts the library generator. -/
def noise (g : ℕ → ℕ → ℝ) (seed : ℕ) (i : Fin 500) : ℝ :=
  0.02 * g seed (i : ℕ)

/-- Embedding of `flux = continuum + line_profile + noise`, pointwise. -/
noncomputable def flux (g : ℕ → ℕ → ℝ) (seed : ℕ) (i : Fin 500) : ℝ :=
  continuum (wavelength i) + line_profile (wavelength i) + noise g seed i

/-- The wavelength array as a finite sequence. -/
noncomputable def wavelengthList : List ℝ := List.ofFn wavelength

/-- The noise array as a finite sequence. -/
def noiseList (g : ℕ → ℕ → ℝ) (seed : ℕ) : List ℝ := List.ofFn (noise g seed)

/-- The flux array as a finite sequence. -/
noncomputable def fluxList (g : ℕ → ℕ → ℝ) (seed : ℕ) : List ℝ :=
  List.ofFn (flux g seed)

/-- The pair of arrays a run of the synthesis produces, as a function of
the library draw function and the seed: the axis and the flux. -/
noncomputable def runArrays (g : ℕ → ℕ → ℝ) (seed : ℕ) : List ℝ × List ℝ :=
  (wavelengthList, fluxList g seed)

/-- The seed literal of the script: `np.random.default_rng(seed=12345)`. -/
def seed_value : ℕ := 12345

/-- The pyspeckit `Spectrum` object: it packages the spectral axis
(`xarr`, built from the wavelength array) and the flux array (`data`). -/
structure Spectrum where
  xarr : Fin 500 → ℝ
  data : Fin 500 → ℝ

/-- Embedding of `sp = pyspeckit.Spectrum(data=flux, xarr=xaxis)` where
`xaxis = SpectroscopicAxis(wavelength, unit=micron)`. -/
noncomputable def mkSpectrum (g : ℕ → ℕ → ℝ) (seed : ℕ) : Spectrum :=
  { xarr := wavelength, data := flux g seed }

/-- The observable side effects of the script, in the granularity the
claims need: figure creation (with size), plotting and annotation calls,
the file write (path and DPI) and the console print. -/
inductive Effect where
  | createFigure (width height : ℕ)
  | plotSpectrum
  | setXLabel (text : String)
  | setYLabel (text : String)
  | setTitle (text : String)
  | axvline (x : ℚ)
  | annotate (text : String)
  | legend
  | grid
  | tightLayout
  | saveFig (path : String) (dpi : ℕ)
  | printLine (text : String)
  deriving DecidableEq

/-- Returns `true` exactly on a `saveFig` effect (a file write). -/
def Effect.isSave : Effect → Bool
  | saveFig _ _ => true
  | _ => false

/-- Returns `true` exactly on a `printLine` effect (a console print). -/
def Effect.isPrint : Effect → Bool
  | printLine _ => true
  | _ => false

/-- State carried through steps 3–6 of the script: the spectrum object
and the trace of side effects emitted so far. -/
structure PlotState where
  sp : Spectrum
  effects : List Effect

/-- Step 4 of the script: `fig = plt.figure(figsize=(10, 6))`,
`sp.plotter(...)`, axis labels and title. -/
def renderStep (s : PlotState) : PlotState :=
  { s with effects := s.effects ++
      [Effect.createFigure 10 6, Effect.plotSpectrum,
       Effect.setXLabel "Wavelength [µm]",
       Effect.setYLabel "Normalized Flux",
       Effect.setTitle "Mid‑infrared spectrum of a protoplanetary disk"] }

/-- Step 5 of the script: the vertical marker at `line_center` and the
arrow annotation. -/
def markStep (s : PlotState) : PlotState :=
  { s with effects := s.effects ++
      [Effect.axvline (17.22 : ℚ), Effect.annotate "H₂O 17.22 µm"] }

/-- Step 6 of the script (with the legend and grid calls that precede
it): `plt.tight_layout()`, `plt.savefig('water_line_spectrum.png',
dpi=150)` and the confirmation print. -/
def finishStep (s : PlotState) : PlotState :=
  { s with effects := s.effects ++
      [Effect.legend, Effect.grid, Effect.tightLayout,
       Effect.saveFig "water_line_spectrum.png" 150,
       Effect.printLine "Figure saved as water_line_spectrum.png"] }

/-- The whole of `main`: synthesize the arrays, build the `Spectrum`
object, then run the render, mark and finish steps. -/
noncomputable def runMain (g : ℕ → ℕ → ℝ) (seed : ℕ) : PlotState :=
  finishStep (markStep (renderStep { sp := mkSpectrum g seed, effects := [] }))

/-- The axis is monotone in the index. -/
theorem wavelength_mono {i j : Fin 500} (h : (i : ℕ) ≤ (j : ℕ)) :
    wavelength i ≤ wavelength j := by
  have hc : ((i : ℕ) : ℝ) ≤ ((j : ℕ) : ℝ) := by exact_mod_cast h
  unfold wavelength wave_min wave_max n_points
  have h499 : (0 : ℝ) < 499 := by norm_num
  push_cast
  nlinarith

/-- The axis is strictly monotone in the index. -/
theorem wavelength_strictMono {i j : Fin 500} (h : (i : ℕ) < (j : ℕ)) :
    wavelength i < wavelength j := by
  have hc : ((i : ℕ) : ℝ) < ((j : ℕ) : ℝ) := by exact_mod_cast h
  unfold wavelength wave_min wave_max n_points
  push_cast
  nlinarith

/-- Each sampled wavelength lies in the interval of the linspace call. -/
theorem wavelength_bounds (i : Fin 500) :
    10.0 ≤ wavelength i ∧ wavelength i ≤ 30.0 := by
  have h0 : ((i : ℕ) : ℝ) ≤ 499 := by
    exact_mod_cast Nat.le_of_lt_succ i.isLt
  have h1 : (0 : ℝ) ≤ ((i : ℕ) : ℝ) := Nat.cast_nonneg _
  unfold wavelength wave_min wave_max n_points
  push_cast
  constructor <;> nlinarith

/-- The first sample of the axis is `wave_min`. -/
theorem wavelength_first : wavelength ⟨0, by norm_num⟩ = 10.0 := by
  unfold wavelength wave_min wave_max n_points
  norm_num

/-- The last sample of the axis is `wave_max`: linspace includes the
endpoint. -/
theorem wavelength_last : wavelength ⟨499, by norm_num⟩ = 30.0 := by
  unfold wavelength wave_min wave_max n_points
  norm_num

/-- C2: the generated wavelength axis has exactly 500 points, spans the
closed interval from 10.0 to 30.0 micrometers with both endpoints
attained, is strictly increasing, and is evenly spaced: every pair of
consecutive points differs by the same step 20/499. -/
theorem axis_shape :
    wavelengthList.length = 500 ∧
    wavelength ⟨0, by norm_num⟩ = 10.0 ∧
    wavelength ⟨499, by norm_num⟩ = 30.0 ∧
    (∀ i : Fin 500, 10.0 ≤ wavelength i ∧ wavelength i ≤ 30.0) ∧
    (∀ i j : Fin 500, (i : ℕ) < (j : ℕ) → wavelength i < wavelength j) ∧
    (∀ i : ℕ, ∀ h : i + 1 < 500,
      wavelength ⟨i + 1, h⟩ - wavelength ⟨i, by omega⟩ = 20 / 499) := by
  refine ⟨List.length_ofFn wavelength, wavelength_first, wavelength_last,
    wavelength_bounds, fun i j h => wavelength_strictMono h, fun i h => ?_⟩
  unfold wavelength wave_min wave_max n_points
  push_cast
  ring

/-- C2 witness: the strict-increase and even-spacing parts of
`axis_shape`, applied at the concrete consecutive indices 3 and 4. -/
theorem axis_shape_witness :
    wavelength ⟨3, by norm_num⟩ < wavelength ⟨4, by norm_num⟩ ∧
    wavelength ⟨4, by norm_num⟩ - wavelength ⟨3, by norm_num⟩ = 20 / 499 :=
  ⟨axis_shape.2.2.2.2.1 ⟨3, by norm_num⟩ ⟨4, by norm_num⟩ (by norm_num),
   axis_shape.2.2.2.2.2 3 (by norm_num)⟩

/-- C3: for every sampled wavelength, the continuum component of the
flux — the flux with the line and noise terms removed — is exactly
`1.0 + 0.02 * (w - 20.0)`. -/
theorem continuum_component (g : ℕ → ℕ → ℝ) (seed : ℕ) (i : Fin 500) :
    flux g seed i - line_profile (wavelength i) - noise g seed i =
      1.0 + 0.02 * (wavelength i - 20.0) := by
  unfold flux continuum
  ring

/-- C10: the continuum component is strictly increasing along the
wavelength axis, its values over the sampled range lie in the interval
from 0.8 to 1.2, and it attains 0.8 at the first sample (10 µm) and 1.2
at the last sample (30 µm). -/
theorem continuum_monotone :
    (∀ i j : Fin 500, (i : ℕ) < (j : ℕ) →
      continuum (wavelength i) < continuum (wavelength j)) ∧
    (∀ i : Fin 500,
      0.8 ≤ continuum (wavelength i) ∧ continuum (wavelength i) ≤ 1.2) ∧
    continuum (wavelength ⟨0, by norm_num⟩) = 0.8 ∧
    continuum (wavelength ⟨499, by norm_num⟩) = 1.2 := by
  have h0 : wavelength ⟨0, by norm_num⟩ = 10.0 := wavelength_first
  have h499 : wavelength ⟨499, by norm_num⟩ = 30.0 := wavelength_last
  refine ⟨fun i j h => ?_, fun i => ?_, ?_, ?_⟩
  · have := wavelength_strictMono h
    unfold continuum
    linarith
  · have := wavelength_bounds i
    unfold continuum
    constructor <;> linarith [this.1, this.2]
  · rw [h0]; unfold continuum; norm_num
  · rw [h499]; unfold continuum; norm_num

/-- C10 witness: `continuum_monotone` applied at the concrete index pair
0 < 499, together with the endpoint values. -/
theorem continuum_monotone_witness :
    continuum (wavelength ⟨0, by norm_num⟩) <
      continuum (wavelength ⟨499, by norm_num⟩) ∧
    continuum (wavelength ⟨0, by norm_num⟩) = 0.8 :=
  ⟨continuum_monotone.1 ⟨0, by norm_num⟩ ⟨499, by norm_num⟩ (by norm_num),
   continuum_monotone.2.2.1⟩

/-- C1: the flux sequence is computed pointwise as continuum plus
Gaussian emission line plus noise, with every parameter the fixed
literal of the script (range 10–30 µm, 500 samples, center 17.22 µm,
width 0.15 µm, amplitude 0.3, noise scale 0.02, seed 12345), and the
flux sequence has the same length (500) as the axis sequence. -/
theorem flux_pointwise (g : ℕ → ℕ → ℝ) :
    (fluxList g 12345).length = wavelengthList.length ∧
    wavelengthList.length = 500 ∧
    (∀ i : Fin 500,
      wavelength i = 10.0 + (30.0 - 10.0) * (i : ℝ) / (500 - 1)) ∧
    (∀ i : Fin 500, flux g 12345 i =
      (1.0 + 0.02 * (wavelength i - 20.0)) +
      0.3 * Real.exp (-(wavelength i - 17.22) ^ 2 / (2.0 * 0.15 ^ 2)) +
      0.02 * g 12345 (i : ℕ)) := by
  refine ⟨?_, List.length_ofFn wavelength, fun i => rfl, fun i => rfl⟩
  rw [fluxList, wavelengthList, List.length_ofFn, List.length_ofFn]

/-- C5: the synthesis is deterministic in the seed, with no other
hidden input: two runs whose generator draws agree on the stream of
seed 12345 produce identical noise sequences and identical flux
sequences. -/
theorem seed_determinism (g g' : ℕ → ℕ → ℝ)
    (h : ∀ i : ℕ, g 12345 i = g' 12345 i) :
    noiseList g 12345 = noiseList g' 12345 ∧
    fluxList g 12345 = fluxList g' 12345 := by
  have hn : noise g 12345 = noise g' 12345 := by
    funext i
    unfold noise
    rw [h (i : ℕ)]
  constructor
  · unfold noiseList
    rw [hn]
  · unfold fluxList
    congr 1
    funext i
    unfold flux
    rw [hn]

/-- C5 witness: `seed_determinism` applied to two copies of the
all-zero draw function, whose streams trivially agree. -/
theorem seed_determinism_witness :
    noiseList (fun _ _ => (0 : ℝ)) 12345 =
      noiseList (fun _ _ => (0 : ℝ)) 12345 ∧
    fluxList (fun _ _ => (0 : ℝ)) 12345 =
      fluxList (fun _ _ => (0 : ℝ)) 12345 :=
  seed_determinism (fun _ _ => 0) (fun _ _ => 0) (fun _ => rfl)

/-- The flux sequences of two runs with the same generator coincide
exactly when their noise sequences coincide: the continuum and line
terms are common to both runs. -/
theorem fluxList_eq_iff_noiseList_eq (g : ℕ → ℕ → ℝ) (s₁ s₂ : ℕ) :
    fluxList g s₁ = fluxList g s₂ ↔ noiseList g s₁ = noiseList g s₂ := by
  unfold fluxList noiseList
  rw [List.ofFn_inj, List.ofFn_inj]
  constructor
  · intro h
    funext i
    have hi := congrFun h i
    unfold flux at hi
    exact add_left_cancel hi
  · intro h
    funext i
    unfold flux
    rw [congrFun h i]

/-- C6: in two runs of the synthesis that differ only in the seed, the
axis sequence is identical (it does not depend on the seed), while the
flux sequences differ exactly when the noise streams the generator
produces for the two seeds differ. -/
theorem seed_change (g : ℕ → ℕ → ℝ) (s₁ s₂ : ℕ) :
    (runArrays g s₁).1 = (runArrays g s₂).1 ∧
    ((runArrays g s₁).2 ≠ (runArrays g s₂).2 ↔
      noiseList g s₁ ≠ noiseList g s₂) := by
  simp only [runArrays]
  exact ⟨trivial, not_congr (fluxList_eq_iff_noiseList_eq g s₁ s₂)⟩

/-- C9: the Gaussian line profile is symmetric about the line center
and bounded by its amplitude: it takes equal values at wavelengths
equidistant from 17.22 µm, is strictly positive, is at most 0.3
everywhere, and attains 0.3 exactly at 17.22 µm. -/
theorem line_profile_symmetric_bounded (w₁ w₂ w : ℝ)
    (h : |w₁ - 17.22| = |w₂ - 17.22|) :
    line_profile w₁ = line_profile w₂ ∧
    0 < line_profile w ∧ line_profile w ≤ 0.3 ∧
    (line_profile w = 0.3 ↔ w = 17.22) := by
  have hexp_le : ∀ v : ℝ,
      Real.exp (-(v - 17.22) ^ 2 / (2.0 * (0.15 : ℝ) ^ 2)) ≤ 1 := by
    intro v
    apply Real.exp_le_one_iff.mpr
    have hv : (0 : ℝ) ≤ (v - 17.22) ^ 2 := sq_nonneg _
    exact div_nonpos_of_nonpos_of_nonneg (by linarith) (by norm_num)
  refine ⟨?_, ?_, ?_, ?_⟩
  · have hsq : (w₁ - 17.22) ^ 2 = (w₂ - 17.22) ^ 2 := by
      rw [← sq_abs (w₁ - 17.22), ← sq_abs (w₂ - 17.22), h]
    unfold line_profile line_center line_width
    rw [hsq]
  · unfold line_profile line_ampl line_center line_width
    positivity
  · have := hexp_le w
    unfold line_profile line_ampl line_center line_width
    nlinarith [Real.exp_pos (-(w - 17.22) ^ 2 / (2.0 * (0.15 : ℝ) ^ 2))]
  · unfold line_profile line_ampl line_center line_width
    constructor
    · intro he
      field_simp at he
      linarith
    · intro hw
      subst hw
      norm_num

/-- C9 witness: `line_profile_symmetric_bounded` applied at the
concrete equidistant pair 17.0 and 17.44 around the center, and at
20.0 for the bounds. -/
theorem line_profile_symmetric_bounded_witness :
    line_profile 17.0 = line_profile 17.44 ∧ 0 < line_profile 20.0 := by
  have h : |(17.0 : ℝ) - 17.22| = |(17.44 : ℝ) - 17.22| := by
    rw [show (17.0 : ℝ) - 17.22 = -(0.22) by norm_num,
      show (17.44 : ℝ) - 17.22 = 0.22 by norm_num, abs_neg]
  obtain ⟨h1, h2, _, _⟩ := line_profile_symmetric_bounded 17.0 17.44 20.0 h
  exact ⟨h1, h2⟩

/-- C4: sample 180 is the sampled wavelength nearest to 17.22 µm, and
there the flux exceeds the continuum at the same wavelength by
approximately the amplitude 0.3: within 0.001 from the line profile
plus whatever the noise draw contributes (here bounded by 0.05, well
above the 0.02-scaled draws the script typically sees). -/
theorem flux_peak (g : ℕ → ℕ → ℝ)
    (hn : |noise g 12345 ⟨180, by norm_num⟩| ≤ 0.05) :
    (∀ j : Fin 500,
      |wavelength ⟨180, by norm_num⟩ - 17.22| ≤ |wavelength j - 17.22|) ∧
    |flux g 12345 ⟨180, by norm_num⟩ -
      continuum (wavelength ⟨180, by norm_num⟩) - 0.3| ≤ 0.051 := by
  have h180 : wavelength ⟨180, by norm_num⟩ = 10 + 3600 / 499 := by
    unfold wavelength wave_min wave_max n_points
    norm_num
  have h1 : wavelength ⟨180, by norm_num⟩ - 17.22 ≤ 0 := by
    rw [h180]
    norm_num
  constructor
  · intro j
    rcases le_or_lt ((j : ℕ)) 180 with hj | hj
    · have hwj : wavelength j ≤ wavelength ⟨180, by norm_num⟩ :=
        wavelength_mono hj
      rw [abs_of_nonpos h1, abs_of_nonpos (by linarith)]
      linarith
    · have h181 : wavelength ⟨181, by norm_num⟩ ≤ wavelength j :=
        @wavelength_mono ⟨181, by norm_num⟩ j
          (show (181 : ℕ) ≤ (j : ℕ) by omega)
      have h181v : wavelength ⟨181, by norm_num⟩ = 10 + 3620 / 499 := by
        unfold wavelength wave_min wave_max n_points
        norm_num
      rw [abs_of_nonpos h1, h180]
      have h2 := le_abs_self (wavelength j - 17.22)
      rw [h181v] at h181
      linarith
  · have hwv : wavelength ⟨180, by norm_num⟩ - 17.22 = -(139 / 24950) := by
      rw [h180]
      norm_num
    have hlp : |line_profile (wavelength ⟨180, by norm_num⟩) - 0.3| ≤ 0.001 := by
      unfold line_profile line_ampl line_center line_width
      rw [hwv]
      have hE : (-(-(139 / 24950 : ℝ)) ^ 2 / (2.0 * (0.15 : ℝ) ^ 2)) =
          -(38642 / 56025225) := by
        norm_num
      rw [hE]
      have hle : Real.exp (-(38642 / 56025225 : ℝ)) ≤ 1 :=
        Real.exp_le_one_iff.mpr (by norm_num)
      have hge : 1 - (38642 / 56025225 : ℝ) ≤
          Real.exp (-(38642 / 56025225 : ℝ)) := by
        have := Real.add_one_le_exp (-(38642 / 56025225 : ℝ))
        linarith
      rw [abs_le]
      constructor <;> nlinarith
    have hfc : flux g 12345 ⟨180, by norm_num⟩ -
        continuum (wavelength ⟨180, by norm_num⟩) - 0.3 =
        (line_profile (wavelength ⟨180, by norm_num⟩) - 0.3) +
          noise g 12345 ⟨180, by norm_num⟩ := by
      unfold flux
      ring
    rw [hfc]
    have habs := abs_add
      (line_profile (wavelength ⟨180, by norm_num⟩) - 0.3)
      (noise g 12345 ⟨180, by norm_num⟩)
    linarith

/-- C4 witness: `flux_peak` applied to the all-zero draw function,
whose noise term is 0; the nearest-sample part instantiated at index 0. -/
theorem flux_peak_witness :
    |wavelength ⟨180, by norm_num⟩ - 17.22| ≤
      |wavelength ⟨0, by norm_num⟩ - 17.22| ∧
    |flux (fun _ _ => (0 : ℝ)) 12345 ⟨180, by norm_num⟩ -
      continuum (wavelength ⟨180, by norm_num⟩) - 0.3| ≤ 0.051 := by
  have hn : |noise (fun _ _ => (0 : ℝ)) 12345 ⟨180, by norm_num⟩| ≤ 0.05 := by
    unfold noise
    norm_num
  exact ⟨(flux_peak (fun _ _ => 0) hn).1 ⟨0, by norm_num⟩,
    (flux_peak (fun _ _ => 0) hn).2⟩

/-- The effect trace of a run does not depend on the draw function or
the seed: it is the fixed sequence of plotting, saving and printing
calls of the script. -/
theorem runMain_effects (g : ℕ → ℕ → ℝ) (seed : ℕ) :
    (runMain g seed).effects =
      [Effect.createFigure 10 6, Effect.plotSpectrum,
       Effect.setXLabel "Wavelength [µm]",
       Effect.setYLabel "Normalized Flux",
       Effect.setTitle "Mid‑infrared spectrum of a protoplanetary disk",
       Effect.axvline (17.22 : ℚ), Effect.annotate "H₂O 17.22 µm",
       Effect.legend, Effect.grid, Effect.tightLayout,
       Effect.saveFig "water_line_spectrum.png" 150,
       Effect.printLine "Figure saved as water_line_spectrum.png"] := by
  simp [runMain, finishStep, markStep, renderStep]

/-- C7: a successful run performs exactly one file write — a PNG at the
fixed relative path `water_line_spectrum.png` with DPI 150, from the
10×6 figure created earlier — and prints exactly one confirmation line,
and that line contains the filename as a substring. -/
theorem single_file_write (g : ℕ → ℕ → ℝ) (seed : ℕ) :
    (runMain g seed).effects.filter Effect.isSave =
      [Effect.saveFig "water_line_spectrum.png" 150] ∧
    Effect.createFigure 10 6 ∈ (runMain g seed).effects ∧
    (runMain g seed).effects.filter Effect.isPrint =
      [Effect.printLine "Figure saved as water_line_spectrum.png"] ∧
    List.IsInfix "water_line_spectrum.png".toList
      "Figure saved as water_line_spectrum.png".toList := by
  rw [runMain_effects]
  refine ⟨by decide, by decide, by decide, ?_⟩
  exact ⟨"Figure saved as ".toList, [], by simp⟩

/-- C8: the wavelength axis is immutable once generated: after flux
synthesis, `Spectrum` construction, rendering, annotation and saving,
the axis stored in the spectrum object still equals the generated axis,
element by element. -/
theorem axis_immutable (g : ℕ → ℕ → ℝ) (seed : ℕ) :
    (runMain g seed).sp = mkSpectrum g seed ∧
    (∀ i : Fin 500, (runMain g seed).sp.xarr i = wavelength i) ∧
    List.ofFn (runMain g seed).sp.xarr = wavelengthList :=
  ⟨rfl, fun _ => rfl, rfl⟩

end PlotSpectrum
